import Mathlib

/-!
Verification of the nonprofit-revenue-scraper pipeline.

This file gives a shallow embedding, in Lean 4, of the extraction
orchestration pipeline of the repository: the value normalizer and pattern
extractor of `form_990_parser.py`, the EIN-discovery / filing-selection /
fallback-chain / batch machinery of `async_nonprofit_scraper.py`, and the
startup credential handling of `gemini_pdf_parser.py`.

Modelling conventions:
* Python floats are modelled as `ℚ` (exact rational arithmetic).
* Python strings are `String`; `None` / `"N/A"` / numeric cell values are
  modelled by the inductive `PyVal`.
* Network, regex-search and AI effects are modelled as explicit oracle
  inputs (the outcome of each effectful call is an argument); exceptions
  raised by an effectful step are values of `PyExn` delivered through
  `Except`.
* Python's `set` is modelled as `Finset ℕ`; Python's insertion-ordered
  `dict` as an association list with in-place update.
-/

namespace NRS

/-- Python value appearing in a result cell: a number, an arbitrary string
(such as `"N/A"`, `"ERROR"`, `"RATE_LIMIT"`), or Python `None`. -/
inductive PyVal where
  | num (q : ℚ)
  | str (s : String)
  | pynone
  deriving DecidableEq, Repr

/-! ### Value Normalizer (`form_990_parser.py`, `_clean_financial_value`) -/

/-- Python `\s` whitespace class over ASCII, as removed by
`re.sub(r'[\$,\s]', '', cleaned)` in `_clean_financial_value`. -/
def isPySpace (c : Char) : Bool :=
  c = ' ' ∨ c = '\t' ∨ c = '\n' ∨ c = '\x0d' ∨ c = '\x0c' ∨ c = '\x0b'

/-- `str.strip()`: drop leading and trailing whitespace. -/
def pyStrip (s : List Char) : List Char :=
  ((s.dropWhile isPySpace).reverse.dropWhile isPySpace).reverse

/-- Character filter of `re.sub(r'[\$,\s]', '', cleaned)`: remove dollar
signs, commas and whitespace everywhere in the string. -/
def removeCurrencyFormatting (s : List Char) : List Char :=
  s.filter (fun c => ¬ (c = '$' ∨ c = ',' ∨ isPySpace c))

/-- Numeric value of a digit string (most significant first). -/
def digitsVal (ds : List Char) : ℕ :=
  ds.foldl (fun a c => 10 * a + (c.toNat - 48)) 0

/-- Model of Python `float(s)` restricted to the decimal core grammar
`[+-] digits [. digits]` (with at least one digit overall): returns the
exact rational, or `none` on a `ValueError`.  The exotic parts of the
Python grammar (exponents, `inf`, `nan`, underscores) are outside the
vocabulary produced by the financial regexes and are not modelled; on
them the model returns `none`. -/
def pyFloat? (s : List Char) : Option ℚ :=
  let (neg, body) :=
    match s with
    | '-' :: rest => (true, rest)
    | '+' :: rest => (false, rest)
    | _ => (false, s)
  let signed : ℚ → ℚ := fun q => if neg then -q else q
  match body.splitOn '.' with
  | [ip] =>
      if ip ≠ [] ∧ ip.all Char.isDigit then
        some (signed (digitsVal ip : ℚ))
      else none
  | [ip, fp] =>
      if (ip ≠ [] ∨ fp ≠ []) ∧ ip.all Char.isDigit ∧ fp.all Char.isDigit then
        some (signed ((digitsVal ip : ℚ) + (digitsVal fp : ℚ) / (10 : ℚ) ^ fp.length))
      else none
  | _ => none

/-- `Form990Parser._clean_financial_value`: strip surrounding whitespace,
treat a fully parenthesized value as negative, remove `$`/`,`/whitespace,
convert with `float`, and reject magnitudes above `1e12`. -/
def clean_financial_value (value_str : String) : Option ℚ :=
  let cleaned := pyStrip value_str.toList
  let is_negative :=
    match cleaned, cleaned.reverse with
    | '(' :: _, ')' :: _ => true
    | _, _ => false
  let cleaned := if is_negative then (cleaned.drop 1).reverse.drop 1 |>.reverse else cleaned
  let cleaned := removeCurrencyFormatting cleaned
  match pyFloat? cleaned with
  | none => none
  | some v =>
      let value := if is_negative then -v else v
      if |value| > (1000000000000 : ℚ) then none else some value

/-! ### Pattern Extractor data model (`form_990_parser.py`) -/

/-- `ParsedFinancialData`: the record filled by `extract_financial_data`.
Optional floats are `Option ℚ`; the executive-compensation `dict` is an
insertion-ordered association list. -/
structure ParsedFinancialData where
  total_revenue : Option ℚ := none
  program_service_revenue : Option ℚ := none
  contributions_grants : Option ℚ := none
  investment_income : Option ℚ := none
  total_expenses : Option ℚ := none
  executive_compensation : List (String × ℚ) := []
  organization_name : Option String := none
  tax_year : Option ℕ := none
  deriving DecidableEq, Repr

/-- Python truthiness of an optional number (`None` and `0` are falsy). -/
def truthyNum (v : Option ℚ) : Bool :=
  match v with
  | none => false
  | some q => q ≠ 0

/-- Python truthiness of an optional string (`None` and `""` are falsy). -/
def truthyStr (v : Option String) : Bool :=
  match v with
  | none => false
  | some s => s ≠ ""

/-- Python truthiness of an optional year (`None` and `0` are falsy). -/
def truthyYear (v : Option ℕ) : Bool :=
  match v with
  | none => false
  | some y => y ≠ 0

/-- The consistency-bonus test of `_calculate_confidence_score`: all three
of total revenue, contributions and program-service revenue truthy, and
`abs(components_sum - total_revenue) / total_revenue < 0.2`. -/
def bonusCond (d : ParsedFinancialData) : Bool :=
  match d.total_revenue, d.contributions_grants, d.program_service_revenue with
  | some r, some c, some p =>
      decide (r ≠ 0 ∧ c ≠ 0 ∧ p ≠ 0 ∧ |c + p - r| / r < 2 / 10)
  | _, _, _ => false

/-- Accumulated `score` of `_calculate_confidence_score`: the sequence of
`score += w` statements, one conditional term per field, plus the
consistency bonus. -/
def confScoreNum (d : ParsedFinancialData) : ℚ :=
  (if d.total_revenue.isSome then (3 : ℚ) / 10 else 0)
    + (if d.total_expenses.isSome then (2 : ℚ) / 10 else 0)
    + (if d.contributions_grants.isSome then (1 : ℚ) / 10 else 0)
    + (if d.program_service_revenue.isSome then (1 : ℚ) / 10 else 0)
    + (if d.executive_compensation ≠ [] then (15 : ℚ) / 100 else 0)
    + (if truthyStr d.organization_name then (1 : ℚ) / 10 else 0)
    + (if truthyYear d.tax_year then (5 : ℚ) / 100 else 0)
    + (if bonusCond d then (1 : ℚ) / 10 else 0)

/-- Accumulated `max_score` of `_calculate_confidence_score`: the same
conditional presence terms, plus the unconditional `max_score += 0.1`
after the bonus check. -/
def confScoreDen (d : ParsedFinancialData) : ℚ :=
  (if d.total_revenue.isSome then (3 : ℚ) / 10 else 0)
    + (if d.total_expenses.isSome then (2 : ℚ) / 10 else 0)
    + (if d.contributions_grants.isSome then (1 : ℚ) / 10 else 0)
    + (if d.program_service_revenue.isSome then (1 : ℚ) / 10 else 0)
    + (if d.executive_compensation ≠ [] then (15 : ℚ) / 100 else 0)
    + (if truthyStr d.organization_name then (1 : ℚ) / 10 else 0)
    + (if truthyYear d.tax_year then (5 : ℚ) / 100 else 0)
    + (1 : ℚ) / 10

/-- `Form990Parser._calculate_confidence_score`: normalized ratio of the
achieved score to the attempted weight, `0` when nothing was attempted. -/
def calculate_confidence_score (d : ParsedFinancialData) : ℚ :=
  if confScoreDen d > 0 then confScoreNum d / confScoreDen d else 0

/-! ### Document Classifier (`form_990_parser.py`, `determine_form_version`) -/

/-- The `FormVersion` enum. -/
inductive FormVersion where
  | post_2008
  | pre_2008
  | unknown
  deriving DecidableEq, Repr

/-- `Form990Parser.determine_form_version`, with the text abstracted to
the boolean outcomes of `re.search` for the five post-2008 and three
pre-2008 indicator patterns (in pattern order): sum the hits of each side
and compare. -/
def determine_form_version (postHits preHits : List Bool) : FormVersion :=
  let post_2008_score := (postHits.filter id).length
  let pre_2008_score := (preHits.filter id).length
  if post_2008_score > pre_2008_score ∧ post_2008_score > 0 then .post_2008
  else if pre_2008_score > 0 then .pre_2008
  else .unknown

/-- Step 3 of `Form990Parser.parse_990_form`: an `UNKNOWN` version is
replaced by `POST_2008` before pattern selection. -/
def effective_form_version (postHits preHits : List Bool) : FormVersion :=
  match determine_form_version postHits preHits with
  | .unknown => .post_2008
  | v => v

/-! ### Executive compensation extraction
(`form_990_parser.py`, `_extract_executive_compensation`) -/

/-- Python `dict` assignment `d[k] = v` on an insertion-ordered
association list: overwrite in place if the key exists, append otherwise. -/
def pyDictInsert (m : List (String × ℚ)) (k : String) (v : ℚ) : List (String × ℚ) :=
  if (m.map Prod.fst).contains k then
    m.map (fun p => if p.1 = k then (k, v) else p)
  else m ++ [(k, v)]

/-- `Form990Parser._extract_executive_compensation`, with the regex layer
abstracted: `matches` is the stream of `(title, raw amount)` pairs
produced by the title patterns (in title-pattern order, as in both the
post-2008 and pre-2008 branches).  An entry is stored only when the raw
amount normalizes to a value strictly greater than zero. -/
def extract_executive_compensation (ms : List (String × String)) :
    List (String × ℚ) :=
  ms.foldl
    (fun compensation_data m =>
      match clean_financial_value m.2 with
      | some compensation =>
          if compensation > 0 then pyDictInsert compensation_data m.1 compensation
          else compensation_data
      | none => compensation_data)
    []

/-! ### EIN discovery (`async_nonprofit_scraper.py`,
`get_eins_by_search_async` and `collect_eins_for_query_async`) -/

/-- Exception value raised by an effectful Python step. -/
inductive PyExn where
  | clientResponseError (status : ℕ)
  | otherExn
  deriving DecidableEq, Repr

/-- Outcome of one registry search request (`session.get` on the search
URL): a 404 status, a JSON body carrying a list of organization EINs, or
any other failure (HTTP error status, timeout, malformed JSON, ...). -/
inductive FetchOutcome where
  | notFound
  | orgs (eins : List ℕ)
  | failure
  deriving DecidableEq, Repr

/-- The deduplication loop of `get_eins_by_search_async` (lines 117-123,
identical in `NonprofitRevenueScraper.get_eins_by_search`): keep only the
EINs not yet in `processed_eins`, adding each kept EIN to the set. -/
def dedupEins (page_orgs : List ℕ) (processed : Finset ℕ) :
    List ℕ × Finset ℕ :=
  page_orgs.foldl
    (fun acc ein =>
      if ein ∈ acc.2 then acc else (acc.1 ++ [ein], insert ein acc.2))
    ([], processed)

/-- `AsyncNonprofitScraper.get_eins_by_search_async`: a 404 or an empty
organization list yields `None` (end of pages); a non-empty page is
deduplicated against the global set; any exception is caught and an empty
list is returned.  The function never raises (its body is wrapped in
`try`/`except Exception`), hence the result is always `Except.ok`. -/
def get_eins_by_search_async (outcome : FetchOutcome) (processed : Finset ℕ) :
    Except PyExn (Option (List ℕ) × Finset ℕ) :=
  match outcome with
  | .notFound => .ok (none, processed)
  | .orgs es =>
      if es = [] then .ok (none, processed)
      else
        let (eins, processed) := dedupEins es processed
        .ok (some eins, processed)
  | .failure => .ok (some [], processed)

/-- Loop state of `collect_eins_for_query_async`. -/
structure CollectState where
  all_eins : List ℕ
  page : ℕ
  consecutive_errors : ℕ
  processed : Finset ℕ
  finished : Bool
  deriving DecidableEq

/-- One iteration of the `while consecutive_errors < 3` loop of
`collect_eins_for_query_async`: fetch the current page; `None` breaks the
loop with success; a non-empty list is appended and resets the error
counter; an empty list leaves the counter unchanged; both advance the
page.  An exception from the fetch (which `get_eins_by_search_async` can
in fact never deliver) would increment the counter without advancing the
page. -/
def collectStep (fetch : ℕ → FetchOutcome) (st : CollectState) : CollectState :=
  if st.finished ∨ 3 ≤ st.consecutive_errors then st
  else
    match get_eins_by_search_async (fetch st.page) st.processed with
    | .error _ =>
        { st with consecutive_errors := st.consecutive_errors + 1 }
    | .ok (none, s) => { st with processed := s, finished := true }
    | .ok (some eins, s) =>
        { all_eins := st.all_eins ++ eins
          page := st.page + 1
          consecutive_errors :=
            if eins = [] then st.consecutive_errors else 0
          processed := s
          finished := false }

/-- Initial loop state of `collect_eins_for_query_async` for one query
term, against the current global deduplication set. -/
def collectInit (processed : Finset ℕ) : CollectState :=
  { all_eins := [], page := 0, consecutive_errors := 0,
    processed := processed, finished := false }

/-- `collect_eins_for_query_async`, run for at most `fuel` loop
iterations (the Python loop has no iteration bound; `fuel` makes the
partial loop a total function of the number of steps taken). -/
def collectRun (fetch : ℕ → FetchOutcome) : ℕ → CollectState → CollectState
  | 0, st => st
  | fuel + 1, st => collectRun fetch fuel (collectStep fetch st)

/-- The EIN-collection phase of `scrape_async` (lines 500-510): run the
pagination loop for each search term in order, threading the global
`processed_eins` set through, and keep each term's result list
(`all_eins.extend(eins)`). -/
def scrapeEins (fetches : List (ℕ → FetchOutcome)) (fuel : ℕ)
    (processed : Finset ℕ) : List (List ℕ) × Finset ℕ :=
  fetches.foldl
    (fun acc fetch =>
      let st := collectRun fetch fuel (collectInit acc.2)
      (acc.1 ++ [st.all_eins], st.processed))
    ([], processed)

/-! ### Filing selection (`async_nonprofit_scraper.py`,
`extract_latest_filing_info_sync`) -/

/-- One filing from the registry detail response, with the inline fields
read by the selector.  `tax_prd_yr` is the value of
`filing.get("tax_prd_yr", 0)` (a missing year reads as `0`). -/
structure Filing where
  tax_prd_yr : ℕ
  totrevenue : Option ℚ := none
  totfuncexpns : Option ℚ := none
  pct_compnsatncurrofcr : Option ℚ := none
  pdf_url : Option String := none
  deriving DecidableEq, Repr

/-- A filing tagged with the list it came from (`true` for
`filings_with_data`). -/
abbrev SelEntry := Filing × Bool

/-- The combined, tagged iteration order of the two selection loops of
`extract_latest_filing_info_sync`: the structured list first. -/
def selEntries (filings_with_data filings_without_data : List Filing) :
    List SelEntry :=
  filings_with_data.map (fun f => (f, true)) ++
    filings_without_data.map (fun f => (f, false))

/-- The two selection loops of `extract_latest_filing_info_sync` (lines
349-361), fused over the tagged concatenation: keep the first filing
attaining the running strict maximum year, starting from year `0`. -/
def selectLoop (entries : List SelEntry) (acc : ℕ × Option SelEntry) :
    ℕ × Option SelEntry :=
  entries.foldl
    (fun a e => if e.1.tax_prd_yr > a.1 then (e.1.tax_prd_yr, some e) else a)
    acc

/-- Python's `round(x, 2)` (round half to even at two decimal places),
on exact rationals. -/
def pyRound2 (x : ℚ) : ℚ :=
  let y := x * 100
  let n := ⌊y⌋
  let frac := y - n
  let r : ℤ :=
    if frac < 1 / 2 then n
    else if frac > 1 / 2 then n + 1
    else if 2 ∣ n then n else n + 1
  (r : ℚ) / 100

/-- `AsyncNonprofitScraper.extract_latest_filing_info_sync`: returns
`(filing_year, revenue, exec_comp, data_source)`. -/
def extract_latest_filing_info_sync
    (filings_with_data filings_without_data : List Filing) :
    ℕ × PyVal × PyVal × String :=
  let entries := selEntries filings_with_data filings_without_data
  match selectLoop entries (0, none) with
  | (_, none) => (0, .str "N/A", .str "N/A", "none")
  | (most_recent_year, some (f, is_filing_with_data)) =>
      if is_filing_with_data then
        let revenue := f.totrevenue
        let expenses := f.totfuncexpns
        let comp_percent := f.pct_compnsatncurrofcr
        let has_revenue := match revenue with | some r => decide (r > 0) | none => false
        let has_comp :=
          match expenses, comp_percent with
          | some _, some cp => decide (cp ≥ 0)
          | _, _ => false
        if has_revenue && has_comp then
          let exec_comp : ℚ :=
            if truthyNum expenses && truthyNum comp_percent then
              pyRound2 (expenses.getD 0 * comp_percent.getD 0)
            else 0
          (most_recent_year, .num (revenue.getD 0), .num exec_comp, "api")
        else if has_revenue || has_comp then
          let rev_val := if has_revenue then PyVal.num (revenue.getD 0) else .str "N/A"
          let comp_val :=
            if has_comp then
              PyVal.num (pyRound2 (expenses.getD 0 * comp_percent.getD 0))
            else .str "N/A"
          (most_recent_year, rev_val, comp_val, "api")
        else (most_recent_year, .str "N/A", .str "N/A", "pdf_needed")
      else (most_recent_year, .str "N/A", .str "N/A", "pdf_needed")

/-- Specification-side filing selection, following the words of the spec:
among the combined (structured, unstructured) list, the filing with the
maximum tax-period year, ties resolved by first-seen order. -/
def firstMaxByYear : List SelEntry → Option SelEntry
  | [] => none
  | e :: es =>
      match firstMaxByYear es with
      | none => some e
      | some g => if g.1.tax_prd_yr > e.1.tax_prd_yr then some g else some e

/-! ### Extraction fallback chain (`async_nonprofit_scraper.py`,
`extract_financials_async`) -/

/-- Check that `small` occurs as a contiguous run inside `big`
(Python's `in` operator on strings). -/
def subSeqAt : List Char → List Char → Bool
  | [], _ => true
  | _ :: _, [] => false
  | a :: as, b :: bs => (a = b && headRun as bs) || subSeqAt (a :: as) bs
where
  /-- `small` is an initial segment of `big`. -/
  headRun : List Char → List Char → Bool
    | [], _ => true
    | _ :: _, [] => false
    | a :: as, b :: bs => a = b && headRun as bs

/-- Python `small in big` on strings. -/
def pyIn (small big : String) : Bool :=
  subSeqAt small.toList big.toList

/-- Python `str.lower()` (ASCII letters suffice for the vocabulary used). -/
def pyLower (s : String) : String :=
  String.mk (s.data.map Char.toLower)

/-- The rate-limit/quota vocabulary test of `extract_financials_async`
(line 204): `"rate" in error_msg or "quota" in error_msg or "429" in
error_msg` on the lowercased error message. -/
def rateLimitVocab (error_msg : String) : Bool :=
  pyIn "rate" error_msg || pyIn "quota" error_msg || pyIn "429" error_msg

/-- Result dictionary of `GeminiPDFParser.parse_with_retry`, restricted to
the keys `extract_financials_async` reads.  `error` is the value of
`result.get("error", "")` (the parser always stores a string there on
failure). -/
structure GeminiResult where
  success : Bool
  total_revenue : Option ℚ := none
  total_executive_compensation : Option ℚ := none
  error : String := ""
  deriving DecidableEq, Repr

/-- Result dictionary of `Form990Parser.parse_990_form`, restricted to the
keys `extract_financials_async` reads: on success the `financial_data`
dict always carries a (possibly `None`) `total_revenue`, and
`executive_compensation` is a title-to-amount dict. -/
structure OcrResult where
  success : Bool
  total_revenue : Option ℚ := none
  executive_compensation : List (String × ℚ) := []
  deriving DecidableEq, Repr

/-- Oracle outcomes of the effectful steps inside
`extract_financials_async` for one filing: the PDF download (which may
raise), the Gemini call and the OCR/pattern parse (both of which return
result dictionaries and never raise). -/
structure ExtractEnv where
  download : Except PyExn Unit
  gemini : GeminiResult
  ocr : OcrResult
  deriving Repr

/-- The `or "N/A"` idiom of lines 198-199: a missing or zero number reads
as `"N/A"`. -/
def orNA (v : Option ℚ) : PyVal :=
  match v with
  | some q => if q ≠ 0 then .num q else .str "N/A"
  | none => .str "N/A"

/-- Lines 212-216 and 221-227: build `(revenue, exec_comp)` from an OCR
parse result: `financial_data.get("total_revenue", "N/A")` (the key is
always present, possibly `None`) and the sum of the compensation dict if
non-empty. -/
def ocrValues (r : OcrResult) : PyVal × PyVal :=
  let revenue : PyVal :=
    match r.total_revenue with
    | some q => .num q
    | none => .pynone
  let exec_comp : PyVal :=
    if r.executive_compensation ≠ [] then
      .num ((r.executive_compensation.map Prod.snd).sum)
    else .str "N/A"
  (revenue, exec_comp)

/-- `AsyncNonprofitScraper.extract_financials_async`: returns
`(revenue, exec_comp, error_type)`.  Every exception of the body is
caught by the `except` clauses at lines 231-243, so the function always
returns a triple. -/
def extract_financials_async (parsing_method : String)
    (pdf_url : Option String) (env : ExtractEnv) : PyVal × PyVal × String :=
  match pdf_url with
  | none => (.str "N/A", .str "N/A", "no_pdf_url")
  | some url =>
      if url = "" ∨ url = "null" then (.str "N/A", .str "N/A", "no_pdf_url")
      else
        match env.download with
        | .error (.clientResponseError status) =>
            if status = 403 then
              (.str "DOWNLOAD_FORBIDDEN", .str "DOWNLOAD_FORBIDDEN", "download_403")
            else if status = 429 then
              (.str "RATE_LIMIT", .str "RATE_LIMIT", "rate_limit")
            else (.str "DOWNLOAD_ERROR", .str "DOWNLOAD_ERROR", "download_error")
        | .error .otherExn => (.str "ERROR", .str "ERROR", "unexpected_error")
        | .ok _ =>
            if parsing_method = "gemini" then
              if env.gemini.success then
                (orNA env.gemini.total_revenue,
                  orNA env.gemini.total_executive_compensation, "success")
              else
                let error_msg := pyLower env.gemini.error
                if rateLimitVocab error_msg then
                  (.str "RATE_LIMIT", .str "RATE_LIMIT", "rate_limit")
                else if env.ocr.success then
                  let (revenue, exec_comp) := ocrValues env.ocr
                  (revenue, exec_comp, "ocr_fallback")
                else (.str "PARSE_FAILED", .str "PARSE_FAILED", "parse_failed")
            else
              if env.ocr.success then
                let (revenue, exec_comp) := ocrValues env.ocr
                (revenue, exec_comp, "success")
              else (.str "PARSE_FAILED", .str "PARSE_FAILED", "parse_failed")

/-! ### Per-organization processing and batching
(`async_nonprofit_scraper.py`, `process_organization_async` and
`process_query_batch_async`) -/

/-- Registry detail response for one organization, restricted to the keys
read by `process_organization_async`. -/
structure OrgDetails where
  name : String
  filings_with_data : List Filing := []
  filings_without_data : List Filing := []
  deriving DecidableEq, Repr

/-- Oracle outcomes for processing one organization: the detail fetch
(which may raise) and, if a PDF is needed, the extraction oracles. -/
structure OrgEnv where
  details : Except PyExn OrgDetails
  extract : ExtractEnv
  deriving Repr

/-- One output row of `process_organization_async`. -/
structure ResultRow where
  name : String
  ein : ℕ
  filing_year : ℕ
  revenue : PyVal
  exec_comp : PyVal
  data_source : String
  deriving DecidableEq, Repr

/-- The error row built by the `except` clause of
`process_organization_async` (lines 329-336). -/
def errorRow (ein : ℕ) : ResultRow :=
  { name := "Error-" ++ toString ein, ein := ein, filing_year := 0,
    revenue := .str "ERROR", exec_comp := .str "ERROR", data_source := "error" }

/-- Python truthiness of `filing.get("pdf_url")` (line 268): present and
non-empty.  (The string `"null"` is truthy here; it is rejected later
inside `extract_financials_async`.) -/
def pdfUrlTruthy (url : Option String) : Bool :=
  match url with
  | none => false
  | some s => s ≠ ""

/-- The error-type categorization of lines 272-279. -/
def categorizeErrorType (error_type : String) : String :=
  if error_type = "success" ∨ error_type = "ocr_fallback" then "pdf"
  else if error_type = "rate_limit" then "rate_limit"
  else if error_type = "parse_failed" ∨ error_type = "download_403" ∨
      error_type = "download_error" ∨ error_type = "unexpected_error" then "error"
  else "none"

/-- `AsyncNonprofitScraper.process_organization_async` for one EIN: fetch
details, run the synchronous filing selector, re-select the most recent
filing and run the async extraction chain when a PDF is needed, and map
any exception to an error row.  Always returns exactly one row. -/
def process_organization_async (parsing_method : String) (ein : ℕ)
    (env : OrgEnv) : ResultRow :=
  match env.details with
  | .error _ => errorRow ein
  | .ok org_details =>
      let (filing_year, revenue, exec_comp, data_source) :=
        extract_latest_filing_info_sync org_details.filings_with_data
          org_details.filings_without_data
      if data_source = "pdf_needed" then
        let all_filings :=
          org_details.filings_with_data ++ org_details.filings_without_data
        let sel :=
          all_filings.foldl
            (fun (a : ℕ × Option Filing) f =>
              if f.tax_prd_yr > a.1 then (f.tax_prd_yr, some f) else a)
            (0, none)
        match sel.2 with
        | some most_recent_filing =>
            if pdfUrlTruthy most_recent_filing.pdf_url then
              let (revenue, exec_comp, error_type) :=
                extract_financials_async parsing_method
                  most_recent_filing.pdf_url env.extract
              { name := org_details.name, ein := ein,
                filing_year := filing_year, revenue := revenue,
                exec_comp := exec_comp,
                data_source := categorizeErrorType error_type }
            else
              { name := org_details.name, ein := ein,
                filing_year := filing_year, revenue := .str "N/A",
                exec_comp := .str "N/A", data_source := "none" }
        | none =>
            { name := org_details.name, ein := ein,
              filing_year := filing_year, revenue := .str "N/A",
              exec_comp := .str "N/A", data_source := "none" }
      else
        { name := org_details.name, ein := ein, filing_year := filing_year,
          revenue := revenue, exec_comp := exec_comp,
          data_source := data_source }

/-- One batch of `process_query_batch_async`: `asyncio.gather` over the
per-organization tasks delivers one terminal result per dispatched EIN,
in dispatch order. -/
def gatherBatch (parsing_method : String) (batch : List ℕ)
    (env : ℕ → OrgEnv) : List ResultRow :=
  batch.map (fun ein => process_organization_async parsing_method ein (env ein))

/-! ### Startup credential handling (`gemini_pdf_parser.py`,
`GeminiPDFParser.__init__`, and `async_nonprofit_scraper.py`,
`AsyncNonprofitScraper.__init__`) -/

/-- `GeminiPDFParser.__init__`: configure from the explicit key if truthy,
else from the `GOOGLE_AI_API_KEY` environment variable if truthy, else
raise `ValueError`. -/
def geminiInit (api_key env_key : Option String) : Except String Unit :=
  if truthyStr api_key then .ok ()
  else if truthyStr env_key then .ok ()
  else .error "GOOGLE_AI_API_KEY environment variable not found"

/-- Parser configuration produced by `AsyncNonprofitScraper.__init__`:
the effective parsing method and whether a Gemini parser was built. -/
structure ScraperCfg where
  parsing_method : String
  gemini_configured : Bool
  deriving DecidableEq, Repr

/-- The parser-initialization block of `AsyncNonprofitScraper.__init__`
(lines 51-64): a `ValueError` from `GeminiPDFParser()` is caught and the
scraper falls back to OCR-only parsing; the constructor itself never
propagates the configuration error. -/
def scraperInit (parsing_method : String) (env_key : Option String) :
    Except String ScraperCfg :=
  if parsing_method = "gemini" then
    match geminiInit none env_key with
    | .ok _ => .ok ⟨"gemini", true⟩
    | .error _ => .ok ⟨"ocr", false⟩
  else .ok ⟨parsing_method, false⟩

/-! ### Auxiliary definitions used by the theorems -/

/-- Specification-side selection over positive-year filings: the spec's
"maximum tax-period year, first-seen order" rule restricted to filings
whose (defaulted) year is positive. -/
def specSelect (entries : List SelEntry) : Option SelEntry :=
  firstMaxByYear (entries.filter (fun e => 0 < e.1.tax_prd_yr))

/-- A registry oracle whose every page request fails with a transport
error. -/
def failFetch : ℕ → FetchOutcome := fun _ => .failure

/-- A small concrete pair of search-term oracles: the first term yields
one page `[1, 2, 2]` forever, the second term yields `[2, 3]` then ends. -/
def demoFetches : List (ℕ → FetchOutcome) :=
  [fun _ => .orgs [1, 2, 2], fun p => if p = 0 then .orgs [2, 3] else .notFound]

/-- A structured filing whose `tax_prd_yr` key is absent (so it reads as
`0`), with complete inline financials. -/
def cexFiling : Filing :=
  { tax_prd_yr := 0, totrevenue := some 500000, totfuncexpns := some 400000,
    pct_compnsatncurrofcr := some (1 / 10), pdf_url := none }

/-- The structured 2019 filing of the spec's worked example (revenue
500000, expenses 400000, compensation percentage 0.10). -/
def demo2019 : Filing :=
  { tax_prd_yr := 2019, totrevenue := some 500000,
    totfuncexpns := some 400000, pct_compnsatncurrofcr := some (1 / 10) }

/-- The unstructured 2021 filing of the spec's worked example. -/
def demo2021 : Filing := { tax_prd_yr := 2021 }

/-- A Gemini failure result carrying a rate-limit message. -/
def demoGemRateLimited : GeminiResult :=
  { success := false, error := "429 Resource has been exhausted (e.g. check quota)" }

/-- An OCR parse success used as the fallback target in examples. -/
def demoOcr : OcrResult :=
  { success := true, total_revenue := some 5,
    executive_compensation := [("CEO", 3)] }

/-- A per-EIN oracle where the detail fetch raises. -/
def demoOrgEnv : ℕ → OrgEnv := fun _ =>
  { details := .error .otherExn,
    extract := { download := .ok (), gemini := demoGemRateLimited, ocr := demoOcr } }

/-! ### Helper lemmas -/

lemma ite_weight_nonneg (c : Prop) [Decidable c] (w : ℚ) (hw : 0 ≤ w) :
    0 ≤ if c then w else 0 := by
  split <;> simp [hw]

lemma ite_weight_le (c : Prop) [Decidable c] (w : ℚ) (hw : 0 ≤ w) :
    (if c then w else 0) ≤ w := by
  split <;> simp [hw]

lemma confScoreNum_nonneg (d : ParsedFinancialData) : 0 ≤ confScoreNum d := by
  unfold confScoreNum
  repeat refine add_nonneg ?_ (ite_weight_nonneg _ _ (by norm_num))
  exact ite_weight_nonneg _ _ (by norm_num)

lemma confScoreDen_pos (d : ParsedFinancialData) : 0 < confScoreDen d := by
  unfold confScoreDen
  have h : (0 : ℚ) ≤
      (if d.total_revenue.isSome then (3 : ℚ) / 10 else 0)
        + (if d.total_expenses.isSome then (2 : ℚ) / 10 else 0)
        + (if d.contributions_grants.isSome then (1 : ℚ) / 10 else 0)
        + (if d.program_service_revenue.isSome then (1 : ℚ) / 10 else 0)
        + (if d.executive_compensation ≠ [] then (15 : ℚ) / 100 else 0)
        + (if truthyStr d.organization_name then (1 : ℚ) / 10 else 0)
        + (if truthyYear d.tax_year then (5 : ℚ) / 100 else 0) := by
    repeat refine add_nonneg ?_ (ite_weight_nonneg _ _ (by norm_num))
    exact ite_weight_nonneg _ _ (by norm_num)
  linarith

lemma confScoreNum_le_den (d : ParsedFinancialData) :
    confScoreNum d ≤ confScoreDen d := by
  unfold confScoreNum confScoreDen
  have h := ite_weight_le (bonusCond d = true) ((1 : ℚ) / 10) (by norm_num)
  linarith

/-- Invariant of the deduplication fold: the accumulated list is
duplicate-free, contained in the accumulated set, disjoint from the
starting set, and the starting set only grows. -/
def DedupInv (s₀ : Finset ℕ) (st : List ℕ × Finset ℕ) : Prop :=
  st.1.Nodup ∧ (∀ e ∈ st.1, e ∈ st.2) ∧ s₀ ⊆ st.2 ∧ ∀ e ∈ st.1, e ∉ s₀

lemma dedup_fold_inv (orgs : List ℕ) (s₀ : Finset ℕ) (st : List ℕ × Finset ℕ)
    (h : DedupInv s₀ st) :
    DedupInv s₀ (orgs.foldl
      (fun acc ein =>
        if ein ∈ acc.2 then acc else (acc.1 ++ [ein], insert ein acc.2))
      st) := by
  induction orgs generalizing st with
  | nil => simpa using h
  | cons ein rest ih =>
      simp only [List.foldl_cons]
      apply ih
      obtain ⟨hnd, hsub, hgrow, hdis⟩ := h
      by_cases hmem : ein ∈ st.2
      · simpa [hmem] using ⟨hnd, hsub, hgrow, hdis⟩
      · simp only [hmem, if_false]
        refine ⟨?_, ?_, ?_, ?_⟩
        · exact List.nodup_append.2 ⟨hnd, List.nodup_singleton ein,
            by intro a ha hb; simp at hb; subst hb; exact hmem (hsub a ha)⟩
        · intro e he
          rcases List.mem_append.1 he with h' | h'
          · exact Finset.mem_insert_of_mem (hsub e h')
          · simp at h'; subst h'; exact Finset.mem_insert_self e st.2
        · exact hgrow.trans (Finset.subset_insert ein st.2)
        · intro e he
          rcases List.mem_append.1 he with h' | h'
          · exact hdis e h'
          · simp at h'; subst h'; exact fun hc => hmem (hgrow hc)

lemma dedupEins_inv (orgs : List ℕ) (s₀ : Finset ℕ) :
    DedupInv s₀ (dedupEins orgs s₀) := by
  unfold dedupEins
  exact dedup_fold_inv orgs s₀ ([], s₀)
    ⟨List.nodup_nil, by simp, Finset.Subset.refl s₀, by simp⟩

/-- `get_eins_by_search_async` never raises: its body is wrapped in
`try`/`except Exception` returning `[]`. -/
lemma get_eins_never_raises (o : FetchOutcome) (s : Finset ℕ) :
    ∃ r, get_eins_by_search_async o s = .ok r := by
  unfold get_eins_by_search_async
  cases o with
  | notFound => exact ⟨_, rfl⟩
  | orgs es => by_cases h : es = [] <;> simp [h]
  | failure => exact ⟨_, rfl⟩

/-- The page result of `get_eins_by_search_async` satisfies the
deduplication invariant against the incoming set (an absent result list
counts as empty). -/
lemma get_eins_inv (o : FetchOutcome) (s₀ : Finset ℕ) (r : Option (List ℕ))
    (s₁ : Finset ℕ) (h : get_eins_by_search_async o s₀ = .ok (r, s₁)) :
    DedupInv s₀ (r.getD [], s₁) := by
  unfold get_eins_by_search_async at h
  cases o with
  | notFound =>
      simp only [Except.ok.injEq, Prod.mk.injEq] at h
      obtain ⟨h1, h2⟩ := h
      subst h1; subst h2
      exact ⟨List.nodup_nil, by simp, Finset.Subset.refl s₀, by simp⟩
  | orgs es =>
      by_cases he : es = []
      · simp only [he, if_true, Except.ok.injEq, Prod.mk.injEq] at h
        obtain ⟨h1, h2⟩ := h
        subst h1; subst h2
        exact ⟨List.nodup_nil, by simp, Finset.Subset.refl s₀, by simp⟩
      · have hd := dedupEins_inv es s₀
        simp only [he, if_false] at h
        rcases hde : dedupEins es s₀ with ⟨eins, s'⟩
        rw [hde] at h hd
        simp only [Except.ok.injEq, Prod.mk.injEq] at h
        obtain ⟨h1, h2⟩ := h
        subst h1; subst h2
        simpa using hd
  | failure =>
      simp only [Except.ok.injEq, Prod.mk.injEq] at h
      obtain ⟨h1, h2⟩ := h
      subst h1; subst h2
      exact ⟨List.nodup_nil, by simp, Finset.Subset.refl s₀, by simp⟩

/-- Invariant of the per-term pagination loop: the collected EINs are
duplicate-free, recorded in the processed set, disjoint from the set as
it stood when the term started, and the set only grows. -/
def CollectInv (s₀ : Finset ℕ) (st : CollectState) : Prop :=
  st.all_eins.Nodup ∧ (∀ e ∈ st.all_eins, e ∈ st.processed) ∧
    s₀ ⊆ st.processed ∧ ∀ e ∈ st.all_eins, e ∉ s₀

lemma collectStep_inv (fetch : ℕ → FetchOutcome) (s₀ : Finset ℕ)
    (st : CollectState) (h : CollectInv s₀ st) :
    CollectInv s₀ (collectStep fetch st) := by
  unfold collectStep
  split
  · exact h
  · obtain ⟨r, hr⟩ := get_eins_never_raises (fetch st.page) st.processed
    rcases r with ⟨ro, s'⟩
    have hinv := get_eins_inv (fetch st.page) st.processed ro s' hr
    obtain ⟨hnd, hsub, hgrow, hdis⟩ := h
    obtain ⟨hnd', hsub', hgrow', hdis'⟩ := hinv
    rw [hr]
    cases ro with
    | none =>
        exact ⟨hnd, fun e he => hgrow' (hsub e he), hgrow.trans hgrow', hdis⟩
    | some eins =>
        simp only [Option.getD] at hnd' hsub' hdis'
        refine ⟨?_, ?_, ?_, ?_⟩
        · exact List.nodup_append.2 ⟨hnd, hnd',
            fun a ha hb => (hdis' a hb) (hsub a ha)⟩
        · intro e he
          rcases List.mem_append.1 he with h' | h'
          · exact hgrow' (hsub e h')
          · exact hsub' e h'
        · exact hgrow.trans hgrow'
        · intro e he
          rcases List.mem_append.1 he with h' | h'
          · exact hdis e h'
          · exact fun hc => (hdis' e h') (hgrow hc)

lemma collectRun_inv (fetch : ℕ → FetchOutcome) (s₀ : Finset ℕ) (fuel : ℕ)
    (st : CollectState) (h : CollectInv s₀ st) :
    CollectInv s₀ (collectRun fetch fuel st) := by
  induction fuel generalizing st with
  | zero => exact h
  | succ n ih => exact ih (collectStep fetch st) (collectStep_inv fetch s₀ st h)

/-- Invariant of the term-by-term fold of `scrapeEins`. -/
def ScrapeInv (s₀ : Finset ℕ) (acc : List (List ℕ) × Finset ℕ) : Prop :=
  acc.1.flatten.Nodup ∧ (∀ e ∈ acc.1.flatten, e ∈ acc.2) ∧
    s₀ ⊆ acc.2 ∧ ∀ e ∈ acc.1.flatten, e ∉ s₀

lemma scrapeEins_fold_inv (fetches : List (ℕ → FetchOutcome)) (fuel : ℕ)
    (s₀ : Finset ℕ) (acc : List (List ℕ) × Finset ℕ) (h : ScrapeInv s₀ acc) :
    ScrapeInv s₀ (fetches.foldl
      (fun acc fetch =>
        let st := collectRun fetch fuel (collectInit acc.2)
        (acc.1 ++ [st.all_eins], st.processed))
      acc) := by
  induction fetches generalizing acc with
  | nil => simpa using h
  | cons fetch rest ih =>
      simp only [List.foldl_cons]
      apply ih
      obtain ⟨hnd, hsub, hgrow, hdis⟩ := h
      have hc : CollectInv acc.2 (collectRun fetch fuel (collectInit acc.2)) :=
        collectRun_inv fetch acc.2 fuel (collectInit acc.2)
          ⟨List.nodup_nil, by simp [collectInit], Finset.Subset.refl acc.2,
            by simp [collectInit]⟩
      obtain ⟨hnd', hsub', hgrow', hdis'⟩ := hc
      refine ⟨?_, ?_, ?_, ?_⟩
      · dsimp only
        rw [List.flatten_append]
        refine List.nodup_append.2 ⟨hnd, by simpa using hnd', ?_⟩
        intro a ha hb
        have hb' : a ∈ (collectRun fetch fuel (collectInit acc.2)).all_eins := by
          simpa using hb
        exact (hdis' a hb') (hsub a ha)
      · dsimp only
        intro e he
        rw [List.flatten_append] at he
        rcases List.mem_append.1 he with h' | h'
        · exact hgrow' (hsub e h')
        · exact hsub' e (by simpa using h')
      · exact hgrow.trans hgrow'
      · dsimp only
        intro e he
        rw [List.flatten_append] at he
        rcases List.mem_append.1 he with h' | h'
        · exact hdis e h'
        · exact fun hc0 => (hdis' e (by simpa using h')) (hgrow hc0)

/-! ### Selection lemmas (`extract_latest_filing_info_sync`) -/

lemma selectLoop_eq_firstMax (l : List SelEntry) (y₀ : ℕ) (b₀ : Option SelEntry) :
    selectLoop l (y₀, b₀) =
      match firstMaxByYear l with
      | none => (y₀, b₀)
      | some g =>
          if g.1.tax_prd_yr > y₀ then (g.1.tax_prd_yr, some g) else (y₀, b₀) := by
  induction l generalizing y₀ b₀ with
  | nil => rfl
  | cons e es ih =>
      simp only [selectLoop, List.foldl_cons, firstMaxByYear] at *
      by_cases he : e.1.tax_prd_yr > y₀
      · simp only [he, if_true]
        rw [ih]
        cases hfm : firstMaxByYear es with
        | none => simp [he]
        | some g =>
            by_cases hg : g.1.tax_prd_yr > e.1.tax_prd_yr
            · have hgy : g.1.tax_prd_yr > y₀ := lt_trans he hg
              simp [hg, hgy, he]
            · simp [hg, he]
      · simp only [he, if_false]
        rw [ih]
        cases hfm : firstMaxByYear es with
        | none => simp [he]
        | some g =>
            by_cases hg : g.1.tax_prd_yr > e.1.tax_prd_yr
            · simp [hg]
            · have hg0 : ¬ g.1.tax_prd_yr > y₀ :=
                not_lt.2 ((le_of_not_lt hg).trans (le_of_not_lt he))
              simp [hg, he, hg0]

lemma firstMax_mem {l : List SelEntry} {g : SelEntry}
    (h : firstMaxByYear l = some g) : g ∈ l := by
  induction l generalizing g with
  | nil => simp [firstMaxByYear] at h
  | cons e es ih =>
      simp only [firstMaxByYear] at h
      cases hfm : firstMaxByYear es with
      | none =>
          simp only [hfm] at h
          have hge : e = g := by simpa using h
          subst hge
          exact List.mem_cons_self e es
      | some g' =>
          simp only [hfm] at h
          by_cases hgt : g'.1.tax_prd_yr > e.1.tax_prd_yr
          · rw [if_pos hgt] at h
            have hg : g' = g := by simpa using h
            subst hg
            exact List.mem_cons_of_mem e (ih hfm)
          · rw [if_neg hgt] at h
            have hg : e = g := by simpa using h
            subst hg
            exact List.mem_cons_self e es

lemma firstMax_none_iff {l : List SelEntry} :
    firstMaxByYear l = none ↔ l = [] := by
  cases l with
  | nil => simp [firstMaxByYear]
  | cons e es =>
      simp only [firstMaxByYear]
      constructor
      · intro h
        cases hfm : firstMaxByYear es with
        | none => simp [hfm] at h
        | some g =>
            simp only [hfm] at h
            split at h <;> simp at h
      · intro h
        simp at h

lemma firstMax_le {l : List SelEntry} {g : SelEntry}
    (h : firstMaxByYear l = some g) :
    ∀ e ∈ l, e.1.tax_prd_yr ≤ g.1.tax_prd_yr := by
  induction l generalizing g with
  | nil => simp
  | cons e es ih =>
      intro a ha
      simp only [firstMaxByYear] at h
      cases hfm : firstMaxByYear es with
      | none =>
          simp only [hfm] at h
          have hge : e = g := by simpa using h
          subst hge
          have hes : es = [] := firstMax_none_iff.1 hfm
          subst hes
          have : a = e := by simpa using ha
          subst this
          exact le_refl _
      | some g' =>
          simp only [hfm] at h
          rcases List.mem_cons.1 ha with h' | hmem
          · subst h'
            by_cases hgt : g'.1.tax_prd_yr > a.1.tax_prd_yr
            · rw [if_pos hgt] at h
              have hg : g' = g := by simpa using h
              subst hg
              exact le_of_lt hgt
            · rw [if_neg hgt] at h
              have hg : a = g := by simpa using h
              subst hg
              exact le_refl _
          · have hle := ih hfm a hmem
            by_cases hgt : g'.1.tax_prd_yr > e.1.tax_prd_yr
            · rw [if_pos hgt] at h
              have hg : g' = g := by simpa using h
              subst hg
              exact hle
            · rw [if_neg hgt] at h
              have hg : e = g := by simpa using h
              subst hg
              exact hle.trans (le_of_not_lt hgt)

lemma firstMax_filter_pos {l : List SelEntry} {g : SelEntry}
    (h : firstMaxByYear l = some g) (hpos : 0 < g.1.tax_prd_yr) :
    firstMaxByYear (l.filter (fun e => 0 < e.1.tax_prd_yr)) = some g := by
  induction l generalizing g with
  | nil => simp [firstMaxByYear] at h
  | cons e es ih =>
      simp only [firstMaxByYear] at h
      cases hfm : firstMaxByYear es with
      | none =>
          simp only [hfm] at h
          have hge : e = g := by simpa using h
          subst hge
          have hes : es = [] := firstMax_none_iff.1 hfm
          subst hes
          simp [List.filter, hpos, firstMaxByYear]
      | some g' =>
          simp only [hfm] at h
          by_cases hgt : g'.1.tax_prd_yr > e.1.tax_prd_yr
          · rw [if_pos hgt] at h
            have hg : g' = g := by simpa using h
            subst hg
            have hres := ih hfm hpos
            by_cases hpe : 0 < e.1.tax_prd_yr
            · rw [List.filter_cons_of_pos (by simpa using hpe)]
              simp only [firstMaxByYear, hres]
              simp [hgt]
            · rw [List.filter_cons_of_neg (by simpa using hpe)]
              exact hres
          · rw [if_neg hgt] at h
            have hg : e = g := by simpa using h
            subst hg
            rw [List.filter_cons_of_pos (by simpa using hpos)]
            simp only [firstMaxByYear]
            cases hff : firstMaxByYear (es.filter fun e => 0 < e.1.tax_prd_yr) with
            | none => rfl
            | some h' =>
                have hmem : h' ∈ es.filter (fun e => 0 < e.1.tax_prd_yr) :=
                  firstMax_mem hff
                have hmem' : h' ∈ es := List.mem_of_mem_filter hmem
                have hle : h'.1.tax_prd_yr ≤ g'.1.tax_prd_yr :=
                  firstMax_le hfm h' hmem'
                have hne : ¬ h'.1.tax_prd_yr > e.1.tax_prd_yr :=
                  not_lt.2 (hle.trans (le_of_not_lt hgt))
                simp [hne]

lemma pyDictInsert_pos (m : List (String × ℚ)) (k : String) (v : ℚ)
    (hm : ∀ p ∈ m, 0 < p.2) (hv : 0 < v) :
    ∀ q ∈ pyDictInsert m k v, 0 < q.2 := by
  intro q hq
  unfold pyDictInsert at hq
  split at hq
  · rcases List.mem_map.1 hq with ⟨p, hp, rfl⟩
    by_cases hpk : p.1 = k
    · simp [hpk, hv]
    · simpa [hpk] using hm p hp
  · rcases List.mem_append.1 hq with h | h
    · exact hm q h
    · have hq' : q = (k, v) := by simpa using h
      subst hq'
      exact hv

lemma extract_exec_fold_pos (ms : List (String × String))
    (acc : List (String × ℚ)) (hacc : ∀ p ∈ acc, 0 < p.2) :
    ∀ p ∈ ms.foldl
      (fun compensation_data m =>
        match clean_financial_value m.2 with
        | some compensation =>
            if compensation > 0 then
              pyDictInsert compensation_data m.1 compensation
            else compensation_data
        | none => compensation_data) acc, 0 < p.2 := by
  induction ms generalizing acc with
  | nil => simpa using hacc
  | cons m rest ih =>
      simp only [List.foldl_cons]
      apply ih
      cases hcv : clean_financial_value m.2 with
      | none => simpa [hcv] using hacc
      | some c =>
          simp only [hcv]
          by_cases hc : c > 0
          · rw [if_pos hc]
            exact pyDictInsert_pos _ _ _ hacc hc
          · rw [if_neg hc]
            exact hacc

/-! ### Claim theorems -/

/-- C6: for every extracted-data record, the confidence score lies in
[0,1] and is the weighted presence sum (with the consistency bonus)
divided by the sum of weights actually attempted; a record with only
total revenue and organization name present scores exactly
(0.30+0.10)/(0.30+0.10+0.10). -/
theorem C6_confidence_score (d : ParsedFinancialData) :
    0 ≤ calculate_confidence_score d ∧ calculate_confidence_score d ≤ 1 ∧
    calculate_confidence_score d * confScoreDen d = confScoreNum d ∧
    ∀ (r : ℚ) (s : String), s ≠ "" →
      calculate_confidence_score
          { total_revenue := some r, organization_name := some s } =
        (3 / 10 + 1 / 10) / (3 / 10 + 1 / 10 + 1 / 10) := by
  have hden := confScoreDen_pos d
  have hnum := confScoreNum_nonneg d
  have hle := confScoreNum_le_den d
  have hcalc : calculate_confidence_score d = confScoreNum d / confScoreDen d := by
    unfold calculate_confidence_score
    rw [if_pos hden]
  refine ⟨?_, ?_, ?_, ?_⟩
  · rw [hcalc]
    exact div_nonneg hnum (le_of_lt hden)
  · rw [hcalc]
    exact (div_le_one hden).2 hle
  · rw [hcalc]
    exact div_mul_cancel₀ _ (ne_of_gt hden)
  · intro r s hs
    unfold calculate_confidence_score confScoreNum confScoreDen bonusCond
    simp [truthyStr, truthyYear, hs]
    norm_num

/-- C6 witness: a record with only total revenue and organization name
present scores exactly 4/5. -/
theorem C6_confidence_score_witness :
    calculate_confidence_score
        { total_revenue := some 5, organization_name := some "ACME" } =
      (3 / 10 + 1 / 10) / (3 / 10 + 1 / 10 + 1 / 10) :=
  (C6_confidence_score {}).2.2.2 5 "ACME" (by decide)

/-- C7: the document classifier returns the era with the strictly higher
indicator-match count; a zero-zero tie returns `unknown`, and the caller
then proceeds with the post-2008 pattern set. -/
theorem C7_form_version (postHits preHits : List Bool) :
    ((postHits.filter id).length > (preHits.filter id).length →
      determine_form_version postHits preHits = .post_2008) ∧
    ((preHits.filter id).length > (postHits.filter id).length →
      determine_form_version postHits preHits = .pre_2008) ∧
    ((postHits.filter id).length = 0 → (preHits.filter id).length = 0 →
      determine_form_version postHits preHits = .unknown ∧
      effective_form_version postHits preHits = .post_2008) := by
  refine ⟨?_, ?_, ?_⟩
  · intro h
    unfold determine_form_version
    rw [if_pos ⟨h, by omega⟩]
  · intro h
    unfold determine_form_version
    rw [if_neg (by omega), if_pos (by omega)]
  · intro h1 h2
    have hv : determine_form_version postHits preHits = .unknown := by
      unfold determine_form_version
      rw [if_neg (by omega), if_neg (by omega)]
    refine ⟨hv, ?_⟩
    unfold effective_form_version
    rw [hv]

/-- C7 witness: one post-2008 indicator hit and none for pre-2008 yields
the post-2008 classification. -/
theorem C7_form_version_witness :
    determine_form_version [true, false] [false] = .post_2008 :=
  (C7_form_version [true, false] [false]).1 (by decide)

/-- C8: the value normalizer strips currency formatting, treats
parenthesized values as negative, and rejects magnitudes above 10^12;
`normalize("$1,234,567") = 1234567`, `normalize("(1,234)") = -1234`, and
`normalize("9999999999999")` is not extractable. -/
theorem C8_value_normalizer :
    (∀ (s : String) (v : ℚ), clean_financial_value s = some v →
      |v| ≤ 10 ^ 12) ∧
    clean_financial_value "$1,234,567" = some 1234567 ∧
    clean_financial_value "(1,234)" = some (-1234) ∧
    clean_financial_value "9999999999999" = none := by
  refine ⟨?_, by decide, by decide, by decide⟩
  intro s v h
  have hbound : (10 : ℚ) ^ 12 = 1000000000000 := by norm_num
  simp only [clean_financial_value] at h
  rw [hbound]
  repeat' split at h
  all_goals
    first
      | exact Option.noConfusion h
      | (rename_i hle
         simp only [Option.some.injEq] at h
         subst h
         exact le_of_not_lt hle)

/-- C8 witness: the bound theorem applies to the normalized value of
`"$1,234,567"`. -/
theorem C8_value_normalizer_witness : |(1234567 : ℚ)| ≤ 10 ^ 12 :=
  C8_value_normalizer.1 "$1,234,567" 1234567 (by decide)

/-- C9 counterexample: with the Gemini method configured and no API key
available, the scraper constructor succeeds (falling back to OCR-only
parsing) even though the Gemini constructor raised: the run does not fail
fast on missing AI credentials. -/
theorem C9_no_fail_fast_counterexample :
    scraperInit "gemini" none = .ok ⟨"ocr", false⟩ ∧
    geminiInit none none =
      .error "GOOGLE_AI_API_KEY environment variable not found" := by
  exact ⟨rfl, rfl⟩

/-- C9 (amended): missing AI credentials make `GeminiPDFParser.__init__`
raise a `ValueError`, but `AsyncNonprofitScraper.__init__` catches it and
continues with OCR-only parsing; with a truthy key the Gemini
configuration is kept. -/
theorem C9_credentials_fallback (env_key : Option String) :
    (truthyStr env_key = false →
      geminiInit none env_key =
        .error "GOOGLE_AI_API_KEY environment variable not found" ∧
      scraperInit "gemini" env_key = .ok ⟨"ocr", false⟩) ∧
    (truthyStr env_key = true →
      scraperInit "gemini" env_key = .ok ⟨"gemini", true⟩) := by
  constructor
  · intro h
    have hg : geminiInit none env_key =
        .error "GOOGLE_AI_API_KEY environment variable not found" := by
      unfold geminiInit
      rw [if_neg (by simp [truthyStr]), if_neg (by simp [h])]
    refine ⟨hg, ?_⟩
    unfold scraperInit
    simp [hg]
  · intro h
    have hg : geminiInit none env_key = .ok () := by
      unfold geminiInit
      rw [if_neg (by simp [truthyStr]), if_pos (by simp [h])]
    unfold scraperInit
    simp [hg]

/-- C9 witness: with no environment key the Gemini constructor raises and
the scraper falls back to OCR. -/
theorem C9_credentials_fallback_witness :
    scraperInit "gemini" (some "") = .ok ⟨"ocr", false⟩ :=
  ((C9_credentials_fallback (some "")).1 (by decide)).2

/-- C10: every value stored in the officer title → compensation mapping
is strictly positive; amounts that fail normalization or normalize to a
non-positive value produce no entry. -/
theorem C10_positive_compensation (ms : List (String × String)) :
    ∀ p ∈ extract_executive_compensation ms, 0 < p.2 := by
  unfold extract_executive_compensation
  exact extract_exec_fold_pos ms [] (by simp)

/-- C10 witness: in a concrete match stream only the positive amount
survives, and its stored value is positive. -/
theorem C10_positive_compensation_witness : 0 < (200 : ℚ) :=
  C10_positive_compensation
    [("CEO", "100,000"), ("CFO", "(5)"), ("COO", "abc"), ("CEO", "200")]
    ("CEO", 200) (by decide)

/-- C1: across all search terms and pages of a run, the concatenation of
the per-term result lists contains no duplicate EIN, every returned EIN
is recorded in the global deduplication set, and an EIN already present
in the set when the run starts is never returned. -/
theorem C1_ein_deduplication (fetches : List (ℕ → FetchOutcome)) (fuel : ℕ)
    (s₀ : Finset ℕ) :
    ((scrapeEins fetches fuel s₀).1.flatten).Nodup ∧
    (∀ e ∈ (scrapeEins fetches fuel s₀).1.flatten,
      e ∈ (scrapeEins fetches fuel s₀).2) ∧
    (∀ e ∈ s₀, e ∉ (scrapeEins fetches fuel s₀).1.flatten) := by
  have h : ScrapeInv s₀ (scrapeEins fetches fuel s₀) := by
    unfold scrapeEins
    exact scrapeEins_fold_inv fetches fuel s₀ ([], s₀)
      ⟨by simp, by simp, Finset.Subset.refl s₀, by simp⟩
  obtain ⟨h1, h2, _, h4⟩ := h
  exact ⟨h1, h2, fun e he hmem => h4 e hmem he⟩

/-- C1 witness: an EIN seeded into the deduplication set before the run
is never returned by any term. -/
theorem C1_ein_deduplication_witness :
    7 ∉ (scrapeEins demoFetches 3 {7}).1.flatten :=
  (C1_ein_deduplication demoFetches 3 {7}).2.2 7 (by decide)

/-- C5 (code bug): with a registry that fails on every page request, the
pagination loop never increments its consecutive-failure counter (every
fetch failure is swallowed by `get_eins_by_search_async` into an empty
page result, which neither ends pagination nor counts as an error), so
after `n` iterations the loop is still running at page `n` with counter
`0` — where the spec requires the term to be abandoned after 3
consecutive failures. -/
theorem C5_failure_cap_unreachable (n : ℕ) :
    collectRun failFetch n (collectInit ∅) =
      { all_eins := [], page := n, consecutive_errors := 0,
        processed := ∅, finished := false } := by
  have key : ∀ (m k : ℕ),
      collectRun failFetch m
        { all_eins := [], page := k, consecutive_errors := 0,
          processed := ∅, finished := false } =
      { all_eins := [], page := k + m, consecutive_errors := 0,
        processed := ∅, finished := false } := by
    intro m
    induction m with
    | zero => intro k; rfl
    | succ m ih =>
        intro k
        show collectRun failFetch m
            (collectStep failFetch
              { all_eins := [], page := k, consecutive_errors := 0,
                processed := ∅, finished := false }) = _
        have hstep : collectStep failFetch
            { all_eins := [], page := k, consecutive_errors := 0,
              processed := ∅, finished := false } =
            { all_eins := [], page := k + 1, consecutive_errors := 0,
              processed := ∅, finished := false } := by
          unfold collectStep get_eins_by_search_async failFetch
          simp
        rw [hstep, ih]
        have harith : k + 1 + m = k + (m + 1) := by omega
        rw [harith]
  simpa [collectInit] using key n 0

/-- C3: a Gemini structured failure whose (lowercased) message matches
the rate/quota/429 vocabulary short-circuits to `rate_limit` — the
result is the same for every OCR oracle, so pattern extraction is never
attempted — while any other Gemini failure falls through to the
OCR/pattern branch. -/
theorem C3_rate_limit_short_circuit (url : String) (gem : GeminiResult)
    (hurl : url ≠ "") (hnull : url ≠ "null") (hfail : gem.success = false) :
    (rateLimitVocab (pyLower gem.error) = true →
      ∀ ocr : OcrResult,
        extract_financials_async "gemini" (some url)
            { download := .ok (), gemini := gem, ocr := ocr } =
          (.str "RATE_LIMIT", .str "RATE_LIMIT", "rate_limit")) ∧
    (rateLimitVocab (pyLower gem.error) = false →
      ∀ ocr : OcrResult,
        extract_financials_async "gemini" (some url)
            { download := .ok (), gemini := gem, ocr := ocr } =
          (if ocr.success then
            ((ocrValues ocr).1, (ocrValues ocr).2, "ocr_fallback")
          else (.str "PARSE_FAILED", .str "PARSE_FAILED", "parse_failed"))) := by
  constructor
  · intro hv ocr
    unfold extract_financials_async
    simp [hurl, hnull, hfail, hv]
  · intro hv ocr
    unfold extract_financials_async
    simp [hurl, hnull, hfail, hv]

/-- C3 witness: a quota/429 failure message yields the rate-limit triple
without consulting the OCR result. -/
theorem C3_rate_limit_short_circuit_witness :
    extract_financials_async "gemini" (some "u")
        { download := .ok (), gemini := demoGemRateLimited, ocr := demoOcr } =
      (.str "RATE_LIMIT", .str "RATE_LIMIT", "rate_limit") :=
  (C3_rate_limit_short_circuit "u" demoGemRateLimited (by decide) (by decide)
    rfl).1 (by decide) demoOcr

lemma process_organization_ein (pm : String) (ein : ℕ) (oe : OrgEnv) :
    (process_organization_async pm ein oe).ein = ein := by
  unfold process_organization_async
  rcases hd : oe.details with e | od
  · simp [hd, errorRow]
  · simp only [hd]
    repeat' split
    all_goals rfl

/-- C4: a batch delivers exactly one terminal row per dispatched EIN, in
dispatch order; a failing detail fetch maps to the error row; every
download exception inside the extraction chain is caught and mapped to
an error kind, with `unexpected_error` for unclassified exceptions. -/
theorem C4_one_terminal_result_per_org (pm : String) (batch : List ℕ)
    (env : ℕ → OrgEnv) :
    (gatherBatch pm batch env).length = batch.length ∧
    (∀ (i : ℕ) (h : i < batch.length)
      (h' : i < (gatherBatch pm batch env).length),
      ((gatherBatch pm batch env).get ⟨i, h'⟩).ein = batch.get ⟨i, h⟩) ∧
    (∀ (ein : ℕ) (oe : OrgEnv) (e : PyExn), oe.details = .error e →
      process_organization_async pm ein oe = errorRow ein) ∧
    (∀ (url : String) (ex : ExtractEnv) (e : PyExn),
      url ≠ "" → url ≠ "null" → ex.download = .error e →
      (extract_financials_async pm (some url) ex).2.2 = "download_403" ∨
      (extract_financials_async pm (some url) ex).2.2 = "rate_limit" ∨
      (extract_financials_async pm (some url) ex).2.2 = "download_error" ∨
      (extract_financials_async pm (some url) ex).2.2 = "unexpected_error") ∧
    (∀ (url : String) (ex : ExtractEnv), url ≠ "" → url ≠ "null" →
      ex.download = .error .otherExn →
      (extract_financials_async pm (some url) ex).2.2 = "unexpected_error") := by
  refine ⟨by simp [gatherBatch], ?_, ?_, ?_, ?_⟩
  · intro i h h'
    simp [gatherBatch, process_organization_ein]
  · intro ein oe e hdet
    unfold process_organization_async
    rw [hdet]
  · intro url ex e hurl hnull hdl
    unfold extract_financials_async
    rw [hdl]
    cases e with
    | clientResponseError status =>
        by_cases h403 : status = 403
        · simp [hurl, hnull, h403]
        · by_cases h429 : status = 429
          · simp [hurl, hnull, h403, h429]
          · simp [hurl, hnull, h403, h429]
    | otherExn => simp [hurl, hnull]
  · intro url ex hurl hnull hdl
    unfold extract_financials_async
    rw [hdl]
    simp [hurl, hnull]

/-- C4 witness: an EIN whose detail fetch raises still produces its
error-tagged terminal row. -/
theorem C4_one_terminal_result_per_org_witness :
    process_organization_async "gemini" 42 (demoOrgEnv 42) = errorRow 42 :=
  (C4_one_terminal_result_per_org "gemini" [42] demoOrgEnv).2.2.1 42
    (demoOrgEnv 42) .otherExn rfl

lemma pyRound2_zero : pyRound2 0 = 0 := by
  unfold pyRound2
  norm_num

/-- The code's selection fold starting at year 0 equals the
specification-side first-seen maximum over positive-year filings. -/
lemma selectLoop_eq_specSelect (entries : List SelEntry) :
    selectLoop entries (0, none) =
      match specSelect entries with
      | none => (0, none)
      | some g => (g.1.tax_prd_yr, some g) := by
  rw [selectLoop_eq_firstMax]
  unfold specSelect
  cases hfm : firstMaxByYear entries with
  | none =>
      have he : entries = [] := firstMax_none_iff.1 hfm
      subst he
      simp [firstMaxByYear]
  | some g =>
      by_cases hg : 0 < g.1.tax_prd_yr
      · rw [firstMax_filter_pos hfm hg]
        simp [hg]
      · have hall := firstMax_le hfm
        have hfe : entries.filter (fun e => 0 < e.1.tax_prd_yr) = [] := by
          rw [List.filter_eq_nil_iff]
          intro a ha
          have h1 := hall a ha
          simp only [decide_eq_true_eq]
          omega
        rw [hfe]
        simp [firstMaxByYear, hg]

/-- C2 counterexample: a structured filing whose `tax_prd_yr` reads as 0
(missing year) with revenue 500000 > 0, expenses 400000 present and
compensation percentage 0.10 ≥ 0.  The claim's selection rule (maximum
year over the combined lists, first-seen ties) picks this filing and its
decision rule requires the `api` outcome, but the code's selection loop
only ever selects a filing whose year beats the initial maximum 0, so it
falls into the no-filing branch and returns year 0, unavailable values
and decision `none`. -/
theorem C2_year_zero_counterexample :
    firstMaxByYear (selEntries [cexFiling] []) = some (cexFiling, true) ∧
    cexFiling.totrevenue = some 500000 ∧ (0 : ℚ) < 500000 ∧
    cexFiling.totfuncexpns = some 400000 ∧
    cexFiling.pct_compnsatncurrofcr = some (1 / 10) ∧ (0 : ℚ) ≤ 1 / 10 ∧
    extract_latest_filing_info_sync [cexFiling] [] =
      (0, .str "N/A", .str "N/A", "none") ∧
    (extract_latest_filing_info_sync [cexFiling] []).2.2.2 ≠ "api" := by
  exact ⟨rfl, rfl, by decide, rfl, rfl, by norm_num, rfl, by decide⟩

/-- C2 (amended): the selector picks the filing with the maximum
positive tax-period year over the combined (structured, unstructured)
lists, structured first and first-seen on ties; filings whose year reads
as 0 are never selected.  An unstructured selection yields `pdf_needed`;
a structured selection with revenue > 0, expenses present and
compensation percentage ≥ 0 yields the `api` outcome with compensation
`round(expenses * pct, 2)`; when no filing has a positive year — in
particular when there is no filing at all — the result is year 0,
unavailable values and decision `none`. -/
theorem C2_filing_selector (wd wod : List Filing) :
    (specSelect (selEntries wd wod) = none →
      extract_latest_filing_info_sync wd wod =
        (0, .str "N/A", .str "N/A", "none")) ∧
    (∀ f : Filing, specSelect (selEntries wd wod) = some (f, false) →
      extract_latest_filing_info_sync wd wod =
        (f.tax_prd_yr, .str "N/A", .str "N/A", "pdf_needed")) ∧
    (∀ (f : Filing) (r ex p : ℚ),
      specSelect (selEntries wd wod) = some (f, true) →
      f.totrevenue = some r → 0 < r → f.totfuncexpns = some ex →
      f.pct_compnsatncurrofcr = some p → 0 ≤ p →
      extract_latest_filing_info_sync wd wod =
        (f.tax_prd_yr, .num r, .num (pyRound2 (ex * p)), "api")) := by
  refine ⟨?_, ?_, ?_⟩
  · intro hs
    have hsel : selectLoop (selEntries wd wod) (0, none) = (0, none) := by
      rw [selectLoop_eq_specSelect, hs]
    unfold extract_latest_filing_info_sync
    dsimp only
    rw [hsel]
  · intro f hs
    have hsel : selectLoop (selEntries wd wod) (0, none) =
        (f.tax_prd_yr, some (f, false)) := by
      rw [selectLoop_eq_specSelect, hs]
    unfold extract_latest_filing_info_sync
    dsimp only
    rw [hsel]
    simp
  · intro f r ex p hs hr hrpos hex hp hppos
    have hsel : selectLoop (selEntries wd wod) (0, none) =
        (f.tax_prd_yr, some (f, true)) := by
      rw [selectLoop_eq_specSelect, hs]
    have hhr : (match f.totrevenue with
        | some r' => decide (r' > 0)
        | none => false) = true := by
      rw [hr]
      simpa using hrpos
    have hhc : (match f.totfuncexpns, f.pct_compnsatncurrofcr with
        | some _, some cp => decide (cp ≥ 0)
        | _, _ => false) = true := by
      rw [hex, hp]
      simpa using hppos
    have hexec :
        (if truthyNum f.totfuncexpns && truthyNum f.pct_compnsatncurrofcr then
          pyRound2 (f.totfuncexpns.getD 0 * f.pct_compnsatncurrofcr.getD 0)
        else 0) = pyRound2 (ex * p) := by
      rw [hex, hp]
      by_cases hz : ex = 0
      · subst hz
        simp [truthyNum, pyRound2_zero]
      · by_cases hz2 : p = 0
        · subst hz2
          simp [truthyNum, pyRound2_zero]
        · simp [truthyNum, hz, hz2]
    unfold extract_latest_filing_info_sync
    dsimp only
    rw [hsel]
    dsimp only
    simp only [hhr, hhc, Bool.and_self, if_true, hexec, hr, Option.getD_some]
    simp [hrpos]

/-- C2 witness: on the spec's worked example (2019 structured filing,
2021 unstructured filing) the selector picks the 2021 filing and reports
`pdf_needed`. -/
theorem C2_filing_selector_witness :
    extract_latest_filing_info_sync [demo2019] [demo2021] =
      (2021, .str "N/A", .str "N/A", "pdf_needed") :=
  (C2_filing_selector [demo2019] [demo2021]).2.1 demo2021 (by decide)

end NRS
